import Mathlib

/-!
Shallow embedding of the AIDA data-analyst agent:

* `agent.py` — the question-processing pipeline (`DataAnalystAgent._build_graph`
  stage functions, the conditional branch `should_process_database_query`, and
  the entry point `process_question`);
* `visualization.py` — `VisualizationManager.auto_visualize`, the chart
  heuristics;
* `llm_handler_fallback.py` — `LLMHandler.analyze_data`, the analysis entry
  point with its inline failure message.

External collaborators (database manager, LLM service, plotly rendering) are
modelled as oracles: each fallible call is an `Except String α` value whose
`error` carries the exception message `str(e)`, quantified over in the
theorems.  Python mutable-state updates become functional record updates;
Python float confidences become `ℚ`; a Python dict with possibly-missing keys
becomes a record of `Option` fields read through `Option.getD` defaults,
mirroring `dict.get(key, default)`.
-/

namespace AIDA

/-- Column metadata, as supplied by the Schema Provider and consumed by
`_format_schema_for_prompt` (name, type, primary-key flag). -/
structure Column where
  name : String
  type : String
  primary_key : Bool
deriving DecidableEq, Repr

/-- `schema_info`: mapping from table name to column metadata, modelled as an
association list whose keys are the table names (`schema_info.keys()`). -/
abbrev Schema := List (String × List Column)

/-- The pandas dtypes distinguished by the `select_dtypes` calls in
`visualization.py`: `number`, `object`, `category`, `datetime64`, anything
else. -/
inductive Dtype where
  | number
  | object
  | category
  | datetime64
  | other
deriving DecidableEq, Repr

/-- A pandas `DataFrame`, reduced to what the code observes: its columns with
their dtypes (in order) and its row count (`len(df)`). -/
structure DataFrame where
  cols : List (String × Dtype)
  nrows : Nat
deriving DecidableEq, Repr

/-- `df.empty`: true when any axis has length 0 (no rows or no columns). -/
def DataFrame.empty (df : DataFrame) : Bool :=
  df.nrows == 0 || df.cols.isEmpty

/-- `df.select_dtypes(include=['number']).columns.tolist()`. -/
def DataFrame.numericCols (df : DataFrame) : List String :=
  (df.cols.filter (fun c => c.2 == Dtype.number)).map Prod.fst

/-- `df.select_dtypes(include=['object', 'category']).columns.tolist()`. -/
def DataFrame.categoricalCols (df : DataFrame) : List String :=
  (df.cols.filter (fun c => c.2 == Dtype.object || c.2 == Dtype.category)).map Prod.fst

/-- `df.select_dtypes(include=['datetime64']).columns.tolist()`. -/
def DataFrame.datetimeCols (df : DataFrame) : List String :=
  (df.cols.filter (fun c => c.2 == Dtype.datetime64)).map Prod.fst

/-- A plotly figure, reduced to which `px` constructor was called and with
which column names and title. -/
inductive Figure where
  | line (x y title : String)
  | bar (x y title : String)
  | scatter (x y title : String)
  | histogram (x title : String)
deriving DecidableEq, Repr

/-- `VisualizationManager.auto_visualize` (`visualization.py` lines 8-39):
empty data yields no chart; otherwise the first matching heuristic of
time-series line, categorical bar (≤ 50 rows), two-numeric scatter,
single-numeric histogram; otherwise no chart.  The list indexings `xs[0]`
and `xs[1]` happen only under the guards that make them safe and are
rendered with `headD`/`tail`. -/
def VisualizationManager.auto_visualize (df : DataFrame) (question : String) :
    Option Figure :=
  if df.empty then none
  else
    let numeric_cols := df.numericCols
    let categorical_cols := df.categoricalCols
    let datetime_cols := df.datetimeCols
    if datetime_cols ≠ [] ∧ numeric_cols ≠ [] then
      some (Figure.line (datetime_cols.headD "") (numeric_cols.headD "")
        ("Time Series: " ++ numeric_cols.headD "" ++ " over " ++ datetime_cols.headD ""))
    else if categorical_cols ≠ [] ∧ numeric_cols ≠ [] ∧ df.nrows ≤ 50 then
      some (Figure.bar (categorical_cols.headD "") (numeric_cols.headD "")
        (numeric_cols.headD "" ++ " by " ++ categorical_cols.headD ""))
    else if 2 ≤ numeric_cols.length then
      some (Figure.scatter (numeric_cols.headD "") (numeric_cols.tail.headD "")
        (numeric_cols.tail.headD "" ++ " vs " ++ numeric_cols.headD ""))
    else if numeric_cols.length = 1 then
      some (Figure.histogram (numeric_cols.headD "")
        ("Distribution of " ++ numeric_cols.headD ""))
    else none

/-- The system prompt of `LLMHandler.analyze_data` (`llm_handler_fallback.py`). -/
def LLMHandler.analysis_system_prompt : String :=
  "You are a data analyst providing insights from query results."

/-- The user prompt built by `LLMHandler.analyze_data`
(`llm_handler_fallback.py` lines 127-142). -/
def LLMHandler.analysis_user_prompt (data question : String) : String :=
  "\nAnalyze the following data and provide insights related to the user's question.\n\nUser Question: "
    ++ question
    ++ "\n\nData:\n"
    ++ data
    ++ "\n\nProvide a clear, comprehensive analysis including:\n1. Key findings\n2. Patterns or trends\n3. Notable insights\n4. Summary statistics if relevant\n\nKeep the response concise but informative.\n"

/-- `LLMHandler.analyze_data` (`llm_handler_fallback.py` lines 123-151): build
the prompts, call the model (`_analyze_data_langchain` or
`_analyze_data_direct`, here the oracle `llm`), and on any exception return
the inline string `"Analysis failed: " ++ str(e)` instead of raising. -/
def LLMHandler.analyze_data (llm : String → String → Except String String)
    (data question : String) : String :=
  match llm LLMHandler.analysis_system_prompt
      (LLMHandler.analysis_user_prompt data question) with
  | Except.ok r => r
  | Except.error e => "Analysis failed: " ++ e

/-- The `QuestionIntent` result of `classify_question_intent`, as read field by
field in `classify_intent` (`agent.py` lines 59-64) and described by the spec:
`{is_database_related, confidence ∈ [0,1], reasoning, suggested_response?}`. -/
structure QuestionIntent where
  is_database_related : Bool
  confidence : ℚ
  reasoning : String
  suggested_response : Option String
deriving DecidableEq, Repr

/-- The `intent` entry of the state: a Python dict whose keys may be absent
(it starts as `{}` and is later filled by `classify_intent`).  Each field is
`Option`-valued; `dict.get(key, default)` becomes `Option.getD`. -/
structure IntentDict where
  is_database_related : Option Bool
  confidence : Option ℚ
  reasoning : Option String
  suggested_response : Option (Option String)
deriving DecidableEq, Repr

/-- The empty dict `{}` used for `intent` in the initial state. -/
def IntentDict.empty : IntentDict :=
  { is_database_related := none, confidence := none, reasoning := none,
    suggested_response := none }

/-- `AgentState` (`agent.py` lines 21-29), the single mutable record threaded
through every stage. -/
structure AgentState where
  question : String
  schema_info : Schema
  intent : IntentDict
  sql_query : String
  query_results : DataFrame
  analysis : String
  visualization : Option Figure
  error : String
deriving DecidableEq, Repr

/-- The external collaborators consumed by the pipeline, as oracles: each
fallible call yields `Except.error str(e)` when the Python call raises, and
`Except.ok` with its value otherwise.  `to_string` is the pandas
`DataFrame.to_string()` serialization used by `analyze_results`. -/
structure Collaborators where
  get_schema_info : Except String Schema
  classify_question_intent : String → Schema → Except String QuestionIntent
  generate_sql_query : String → Schema → Except String String
  execute_query : String → Except String DataFrame
  analyze_data : String → String → Except String String
  auto_visualize : DataFrame → String → Except String (Option Figure)
  to_string : DataFrame → String

/-- Python's `a or b` on an optional string `a`: `b` when `a` is `None` or the
empty string (falsy), otherwise `a`. -/
def pyOrStr (a : Option String) (b : String) : String :=
  match a with
  | some s => if s = "" then b else s
  | none => b

/-- The templated fallback message synthesized by `classify_intent`
(`agent.py` lines 70-76) when the question is not database-related and the
classifier supplied no (truthy) `suggested_response`; it references the
available table names, or a generic phrase when `schema_info` is empty. -/
def fallbackResponse (question : String) (schema_info : Schema) : String :=
  "I'm an AI Data Analyst specialized in analyzing database information. "
    ++ "Your question '" ++ question
    ++ "' appears to be a general question that doesn't relate to the available data in our database. "
    ++ "I can help you analyze data from our database which contains information about "
    ++ (if schema_info.isEmpty then "various business entities"
        else String.intercalate ", " (schema_info.map Prod.fst))
    ++ ". "
    ++ "Please ask questions about the data in our database, such as showing records, calculating totals, or finding patterns in the data."

/-- Stage `get_schema` (`agent.py` lines 42-48): store the schema, or on an
exception set `error = "Schema retrieval failed: " ++ str(e)`.  No guard on a
pre-existing error (it is the first stage). -/
def get_schema (C : Collaborators) (state : AgentState) : AgentState :=
  match C.get_schema_info with
  | Except.ok info => { state with schema_info := info }
  | Except.error e => { state with error := "Schema retrieval failed: " ++ e }

/-- Stage `classify_intent` (`agent.py` lines 50-82): call the classifier,
store the result as a dict in `intent`, and when the question is not
database-related store `suggested_response or <fallback template>` in
`analysis`.  On an exception set `error = "Intent classification failed: "
++ str(e)`.  Note: unlike the four stages after the branch, this stage has
NO `if state.get("error"): return state` guard. -/
def classify_intent (C : Collaborators) (state : AgentState) : AgentState :=
  match C.classify_question_intent state.question state.schema_info with
  | Except.ok intent_result =>
    let intent_dict : IntentDict :=
      { is_database_related := some intent_result.is_database_related,
        confidence := some intent_result.confidence,
        reasoning := some intent_result.reasoning,
        suggested_response := some intent_result.suggested_response }
    let state := { state with intent := intent_dict }
    if intent_result.is_database_related then state
    else
      let response := pyOrStr intent_result.suggested_response
        (fallbackResponse state.question state.schema_info)
      { state with analysis := response }
  | Except.error e => { state with error := "Intent classification failed: " ++ e }

/-- Stage `generate_sql` (`agent.py` lines 84-96): no-op when `error` is
already set (non-empty, i.e. truthy); otherwise store the generated SQL, or
on an exception set `error = "SQL generation failed: " ++ str(e)`. -/
def generate_sql (C : Collaborators) (state : AgentState) : AgentState :=
  if state.error ≠ "" then state
  else
    match C.generate_sql_query state.question state.schema_info with
    | Except.ok q => { state with sql_query := q }
    | Except.error e => { state with error := "SQL generation failed: " ++ e }

/-- Stage `execute_query` (`agent.py` lines 98-107): no-op when `error` is
already set; otherwise store the query results, or on an exception set
`error = "Query execution failed: " ++ str(e)`. -/
def execute_query (C : Collaborators) (state : AgentState) : AgentState :=
  if state.error ≠ "" then state
  else
    match C.execute_query state.sql_query with
    | Except.ok df => { state with query_results := df }
    | Except.error e => { state with error := "Query execution failed: " ++ e }

/-- Stage `analyze_results` (`agent.py` lines 109-120): no-op when `error` is
already set; otherwise analyze the serialized results, or on an exception set
`error = "Analysis failed: " ++ str(e)`. -/
def analyze_results (C : Collaborators) (state : AgentState) : AgentState :=
  if state.error ≠ "" then state
  else
    match C.analyze_data (C.to_string state.query_results) state.question with
    | Except.ok a => { state with analysis := a }
    | Except.error e => { state with error := "Analysis failed: " ++ e }

/-- Stage `create_visualization` (`agent.py` lines 122-134): no-op when
`error` is already set; otherwise store the (optional) figure, or on an
exception set `error = "Visualization failed: " ++ str(e)`. -/
def create_visualization (C : Collaborators) (state : AgentState) : AgentState :=
  if state.error ≠ "" then state
  else
    match C.auto_visualize state.query_results state.question with
    | Except.ok v => { state with visualization := v }
    | Except.error e => { state with error := "Visualization failed: " ++ e }

/-- The branch `should_process_database_query` (`agent.py` lines 136-150):
`"end"` when `error` is set; `"end"` when the intent is a high-confidence
non-database classification (`not is_db_related and confidence > 0.7`, with
dict defaults `True` and `0.0`); otherwise `"generate_sql"`. -/
def should_process_database_query (state : AgentState) : String :=
  if state.error ≠ "" then "end"
  else
    let is_db_related := state.intent.is_database_related.getD true
    let confidence := state.intent.confidence.getD 0
    if is_db_related = false ∧ confidence > 7/10 then "end"
    else "generate_sql"

/-- The fresh `AgentState` built by `process_question` (`agent.py` lines
185-194): empty schema, empty intent dict, empty strings, empty DataFrame
(`pd.DataFrame()`), no visualization, no error. -/
def initial_state (question : String) : AgentState :=
  { question := question, schema_info := [], intent := IntentDict.empty,
    sql_query := "", query_results := { cols := [], nrows := 0 },
    analysis := "", visualization := none, error := "" }

/-- The state reaching the conditional branch: `get_schema` then
`classify_intent` (graph edge `get_schema → classify_intent`). -/
def run_to_branch (C : Collaborators) (question : String) : AgentState :=
  classify_intent C (get_schema C (initial_state question))

/-- `process_question` (`agent.py` lines 183-197) running the compiled graph:
entry `get_schema`, edge to `classify_intent`, conditional edge on
`should_process_database_query` (`"end"` → END, `"generate_sql"` →
`generate_sql`), then the linear chain `execute_query`, `analyze_results`,
`create_visualization`, END.  Returns the final state. -/
def process_question (C : Collaborators) (question : String) : AgentState :=
  let branch_state := run_to_branch C question
  if should_process_database_query branch_state = "end" then branch_state
  else
    create_visualization C (analyze_results C (execute_query C (generate_sql C branch_state)))

/-- The error strings a stage can leave in the state: empty, or one of the
six stage-prefixed messages of `agent.py`. -/
def StageTagged (e : String) : Prop :=
  e = "" ∨ ∃ m,
    e = "Schema retrieval failed: " ++ m ∨
    e = "Intent classification failed: " ++ m ∨
    e = "SQL generation failed: " ++ m ∨
    e = "Query execution failed: " ++ m ∨
    e = "Analysis failed: " ++ m ∨
    e = "Visualization failed: " ++ m

/-! ## Concrete collaborator fixtures for witnesses and counterexamples -/

/-- A small concrete schema: two tables. -/
def okSchema : Schema :=
  [("customers", [⟨"id", "integer", true⟩, ⟨"name", "text", false⟩]),
   ("orders", [⟨"total", "numeric", false⟩])]

/-- A fully succeeding set of collaborators. -/
def baseC : Collaborators :=
  { get_schema_info := Except.ok okSchema,
    classify_question_intent := fun _ _ =>
      Except.ok ⟨true, 95/100, "asks about revenue", none⟩,
    generate_sql_query := fun _ _ => Except.ok "SELECT total FROM orders",
    execute_query := fun _ => Except.ok { cols := [("total", Dtype.number)], nrows := 3 },
    analyze_data := fun _ _ => Except.ok "Totals are increasing.",
    auto_visualize := fun _ _ =>
      Except.ok (some (Figure.histogram "total" "Distribution of total")),
    to_string := fun _ => "total\n1\n2\n3" }

/-- Collaborators whose Schema Provider raises while the classifier still
succeeds with a high-confidence non-database result and no suggestion. -/
def CnoGuard : Collaborators :=
  { baseC with
    get_schema_info := Except.error "connection refused",
    classify_question_intent := fun _ _ =>
      Except.ok ⟨false, 9/10, "not database related", none⟩ }

/-- The state after `get_schema` under `CnoGuard`: its `error` is set. -/
def s1_noGuard : AgentState := get_schema CnoGuard (initial_state "What is love?")

/-- Collaborators for scenario B: a high-confidence non-database
classification carrying its own suggested response. -/
def Cweather : Collaborators :=
  { baseC with
    classify_question_intent := fun _ _ =>
      Except.ok ⟨false, 9/10, "weather question",
        some "I can't answer weather questions."⟩ }

/-- The state after `get_schema` under `Cweather`. -/
def weatherSchemaState : AgentState :=
  get_schema Cweather (initial_state "What's the weather today?")

/-- Collaborators with a high-confidence non-database classification and no
suggested response. -/
def Cshort : Collaborators :=
  { baseC with
    classify_question_intent := fun _ _ =>
      Except.ok ⟨false, 9/10, "definitely not about the database", none⟩ }

/-- Collaborators classifying non-database at the boundary confidence 0.7. -/
def Cboundary : Collaborators :=
  { baseC with
    classify_question_intent := fun _ _ =>
      Except.ok ⟨false, 7/10, "ambiguous", none⟩ }

/-- Collaborators whose Schema Provider raises; everything else succeeds
(classifier returns a database-related result). -/
def CschemaDown : Collaborators :=
  { baseC with get_schema_info := Except.error "timeout" }

/-- Collaborators whose Schema Provider raises and whose classifier returns a
non-database result with its own suggested response. -/
def CschemaDownSuggest : Collaborators :=
  { baseC with
    get_schema_info := Except.error "timeout",
    classify_question_intent := fun _ _ =>
      Except.ok ⟨false, 9/10, "weather", some "No."⟩ }

/-- Collaborators whose Query Generator raises; the classifier returns a
database-related result, so the run proceeds past the branch. -/
def CsqlDown : Collaborators :=
  { baseC with generate_sql_query := fun _ _ => Except.error "bad prompt" }

/-- Collaborators where both the Schema Provider and the classifier raise. -/
def CbothDown : Collaborators :=
  { baseC with
    get_schema_info := Except.error "db down",
    classify_question_intent := fun _ _ => Except.error "llm down" }

/-- A state carrying a non-empty error, for exercising the stage guards. -/
def sWithError : AgentState := { initial_state "q" with error := "boom" }

/-! ## Helper lemmas -/

/-- Appending to a non-empty string on the left keeps it non-empty. -/
theorem append_ne_empty_left (s t : String) (h : s ≠ "") : s ++ t ≠ "" := by
  intro he
  have hd := congrArg String.data he
  rw [String.data_append] at hd
  simp at hd
  apply h
  cases s with
  | mk l => cases hd.1; rfl

/-- The templated fallback message is never the empty string. -/
theorem fallbackResponse_ne_empty (q : String) (sch : Schema) :
    fallbackResponse q sch ≠ "" := by
  unfold fallbackResponse
  apply append_ne_empty_left
  apply append_ne_empty_left
  apply append_ne_empty_left
  apply append_ne_empty_left
  apply append_ne_empty_left
  apply append_ne_empty_left
  decide

/-- `suggested_response or <fallback template>` is never the empty string. -/
theorem pyOrStr_fallback_ne_empty (a : Option String) (q : String) (sch : Schema) :
    pyOrStr a (fallbackResponse q sch) ≠ "" := by
  unfold pyOrStr
  cases a with
  | none => exact fallbackResponse_ne_empty q sch
  | some s =>
    by_cases hs : s = ""
    · simpa [hs] using fallbackResponse_ne_empty q sch
    · simp [hs]

/-- `generate_sql` is a no-op pass-through on a state with a non-empty error. -/
theorem generate_sql_of_error (C : Collaborators) (s : AgentState)
    (h : s.error ≠ "") : generate_sql C s = s := by
  unfold generate_sql
  simp [h]

/-- `execute_query` is a no-op pass-through on a state with a non-empty error. -/
theorem execute_query_of_error (C : Collaborators) (s : AgentState)
    (h : s.error ≠ "") : execute_query C s = s := by
  unfold execute_query
  simp [h]

/-- `analyze_results` is a no-op pass-through on a state with a non-empty error. -/
theorem analyze_results_of_error (C : Collaborators) (s : AgentState)
    (h : s.error ≠ "") : analyze_results C s = s := by
  unfold analyze_results
  simp [h]

/-- `create_visualization` is a no-op pass-through on a state with a non-empty
error. -/
theorem create_visualization_of_error (C : Collaborators) (s : AgentState)
    (h : s.error ≠ "") : create_visualization C s = s := by
  unfold create_visualization
  simp [h]

/-- The state reaching the branch when both `get_schema` and
`classify_intent` succeed: schema stored, intent dict filled, and — for a
non-database classification — the suggested-or-fallback text in `analysis`. -/
theorem run_to_branch_ok (C : Collaborators) (q : String) (info : Schema)
    (r : QuestionIntent)
    (hs : C.get_schema_info = Except.ok info)
    (hc : C.classify_question_intent q info = Except.ok r) :
    run_to_branch C q =
      (let base : AgentState :=
        { initial_state q with
            schema_info := info,
            intent := { is_database_related := some r.is_database_related,
                        confidence := some r.confidence,
                        reasoning := some r.reasoning,
                        suggested_response := some r.suggested_response } }
      if r.is_database_related then base
      else { base with
              analysis := pyOrStr r.suggested_response (fallbackResponse q info) }) := by
  unfold run_to_branch get_schema classify_intent
  rw [hs]
  simp only [initial_state]
  rw [hc]

/-- The full final state of a short-circuited run: both pre-branch stages
succeed, the classification is non-database with confidence above 0.7, and
the pipeline ends at the branch. -/
theorem process_question_short_circuit_eq (C : Collaborators) (q : String)
    (info : Schema) (r : QuestionIntent)
    (hs : C.get_schema_info = Except.ok info)
    (hc : C.classify_question_intent q info = Except.ok r)
    (hdb : r.is_database_related = false)
    (hconf : 7/10 < r.confidence) :
    process_question C q =
      { initial_state q with
          schema_info := info,
          intent := { is_database_related := some false,
                      confidence := some r.confidence,
                      reasoning := some r.reasoning,
                      suggested_response := some r.suggested_response },
          analysis := pyOrStr r.suggested_response (fallbackResponse q info) } := by
  have hb := run_to_branch_ok C q info r hs hc
  simp only [hdb, if_false, Bool.false_eq_true] at hb
  have hsp : should_process_database_query (run_to_branch C q) = "end" := by
    rw [hb]
    unfold should_process_database_query
    simp [initial_state, hconf]
  simp only [process_question, hsp, reduceIte]
  rw [hb]

/-- `execute_query` never touches `sql_query`. -/
theorem execute_query_sql_query (C : Collaborators) (s : AgentState) :
    (execute_query C s).sql_query = s.sql_query := by
  unfold execute_query
  split_ifs
  · rfl
  · cases C.execute_query s.sql_query <;> simp

/-- `analyze_results` never touches `sql_query`. -/
theorem analyze_results_sql_query (C : Collaborators) (s : AgentState) :
    (analyze_results C s).sql_query = s.sql_query := by
  unfold analyze_results
  split_ifs
  · rfl
  · cases C.analyze_data (C.to_string s.query_results) s.question <;> simp

/-- `create_visualization` never touches `sql_query`. -/
theorem create_visualization_sql_query (C : Collaborators) (s : AgentState) :
    (create_visualization C s).sql_query = s.sql_query := by
  unfold create_visualization
  split_ifs
  · rfl
  · cases C.auto_visualize s.query_results s.question <;> simp

/-- `get_schema` leaves the error empty or stage-tagged. -/
theorem stageTagged_get_schema (C : Collaborators) (s : AgentState)
    (h : StageTagged s.error) : StageTagged (get_schema C s).error := by
  unfold get_schema
  cases C.get_schema_info with
  | ok info => exact h
  | error e => exact Or.inr ⟨e, Or.inl rfl⟩

/-- `classify_intent` leaves the error empty or stage-tagged. -/
theorem stageTagged_classify_intent (C : Collaborators) (s : AgentState)
    (h : StageTagged s.error) : StageTagged (classify_intent C s).error := by
  unfold classify_intent
  cases C.classify_question_intent s.question s.schema_info with
  | ok r =>
    dsimp only
    split
    · exact h
    · exact h
  | error e => exact Or.inr ⟨e, Or.inr (Or.inl rfl)⟩

/-- `generate_sql` leaves the error empty or stage-tagged. -/
theorem stageTagged_generate_sql (C : Collaborators) (s : AgentState)
    (h : StageTagged s.error) : StageTagged (generate_sql C s).error := by
  unfold generate_sql
  split_ifs
  · exact h
  · cases C.generate_sql_query s.question s.schema_info with
    | ok q => exact h
    | error e => exact Or.inr ⟨e, Or.inr (Or.inr (Or.inl rfl))⟩

/-- `execute_query` leaves the error empty or stage-tagged. -/
theorem stageTagged_execute_query (C : Collaborators) (s : AgentState)
    (h : StageTagged s.error) : StageTagged (execute_query C s).error := by
  unfold execute_query
  split_ifs
  · exact h
  · cases C.execute_query s.sql_query with
    | ok df => exact h
    | error e => exact Or.inr ⟨e, Or.inr (Or.inr (Or.inr (Or.inl rfl)))⟩

/-- `analyze_results` leaves the error empty or stage-tagged. -/
theorem stageTagged_analyze_results (C : Collaborators) (s : AgentState)
    (h : StageTagged s.error) : StageTagged (analyze_results C s).error := by
  unfold analyze_results
  split_ifs
  · exact h
  · cases C.analyze_data (C.to_string s.query_results) s.question with
    | ok a => exact h
    | error e => exact Or.inr ⟨e, Or.inr (Or.inr (Or.inr (Or.inr (Or.inl rfl))))⟩

/-- `create_visualization` leaves the error empty or stage-tagged. -/
theorem stageTagged_create_visualization (C : Collaborators) (s : AgentState)
    (h : StageTagged s.error) : StageTagged (create_visualization C s).error := by
  unfold create_visualization
  split_ifs
  · exact h
  · cases C.auto_visualize s.query_results s.question with
    | ok v => exact h
    | error e => exact Or.inr ⟨e, Or.inr (Or.inr (Or.inr (Or.inr (Or.inr rfl))))⟩

end AIDA

namespace AIDA

/-! ## Claim theorems -/

/-- C10: the branch decision is total over partial intent dicts: with no error
and a missing `is_database_related` key (default `True`) or a missing
`confidence` key (default `0.0`), `should_process_database_query` decides to
proceed to SQL generation. -/
theorem should_process_total_on_partial_intent (s : AgentState)
    (he : s.error = "")
    (hp : s.intent.is_database_related = none ∨ s.intent.confidence = none) :
    should_process_database_query s = "generate_sql" := by
  unfold should_process_database_query
  rcases hp with h | h
  · simp [he, h]
  · simp [he, h]
    intro _
    norm_num

/-- Witness for C10: the initial state has no error and an empty intent dict,
and the branch decides `"generate_sql"` on it. -/
theorem should_process_total_on_partial_intent_witness :
    should_process_database_query (initial_state "Hello there") = "generate_sql" :=
  should_process_total_on_partial_intent (initial_state "Hello there") rfl
    (Or.inl rfl)

/-- C9: `auto_visualize` returns no chart exactly when the DataFrame is empty
or no heuristic matches (no datetime column paired with a numeric column, no
categorical-plus-numeric pair with at most 50 rows, and fewer than one
numeric column); otherwise it returns some chart handle. -/
theorem auto_visualize_none_iff (df : DataFrame) (q : String) :
    VisualizationManager.auto_visualize df q = none ↔
      (df.empty = true ∨
        (¬(df.datetimeCols ≠ [] ∧ df.numericCols ≠ []) ∧
         ¬(df.categoricalCols ≠ [] ∧ df.numericCols ≠ [] ∧ df.nrows ≤ 50) ∧
         df.numericCols.length < 1)) := by
  simp only [VisualizationManager.auto_visualize]
  split_ifs with h1 h2 h3 h4 h5
  · simp [h1]
  · simp [h1, h2]
  · simp [h1, h3]
  · simp only [reduceCtorEq, false_iff, not_or]
    refine ⟨by simp [h1], ?_⟩
    rintro ⟨-, -, hlt⟩
    omega
  · simp only [reduceCtorEq, false_iff, not_or]
    refine ⟨by simp [h1], ?_⟩
    rintro ⟨-, -, hlt⟩
    omega
  · simp only [true_iff]
    refine Or.inr ⟨h2, h3, ?_⟩
    omega

/-- C8: the fallback handler's `analyze_data` never raises: when the
underlying model call raises with message `e`, it returns the inline string
`"Analysis failed: " ++ e` (it is total by construction, returning a plain
string). -/
theorem analyze_data_inline_failure (llm : String → String → Except String String)
    (data question e : String)
    (h : llm LLMHandler.analysis_system_prompt
      (LLMHandler.analysis_user_prompt data question) = Except.error e) :
    LLMHandler.analyze_data llm data question = "Analysis failed: " ++ e := by
  unfold LLMHandler.analyze_data
  rw [h]

/-- Witness for C8: a model call that always raises with message
`"rate limited"` makes `analyze_data` return the inline failure string. -/
theorem analyze_data_inline_failure_witness :
    LLMHandler.analyze_data (fun _ _ => Except.error "rate limited") "total\n1" "Why?"
      = "Analysis failed: rate limited" :=
  analyze_data_inline_failure (fun _ _ => Except.error "rate limited")
    "total\n1" "Why?" "rate limited" rfl

/-- C1 (counterexample): `classify_intent` is NOT a no-op on a state whose
`error` is already set.  With the Schema Provider failing and the classifier
succeeding, the stage still writes `intent` and `analysis`, so the claimed
guard pattern does not hold for this stage. -/
theorem classify_intent_ignores_prior_error :
    s1_noGuard.error = "Schema retrieval failed: connection refused" ∧
    (classify_intent CnoGuard s1_noGuard).intent ≠ s1_noGuard.intent ∧
    (classify_intent CnoGuard s1_noGuard).analysis ≠ s1_noGuard.analysis := by
  exact ⟨by decide, by decide, by decide⟩

/-- C1 (amended): every stage strictly after the branch — `generate_sql`,
`execute_query`, `analyze_results`, `create_visualization` — returns the
state unmodified when `error` is non-empty on entry; `classify_intent` has no
such guard. -/
theorem guarded_stages_no_op (C : Collaborators) (s : AgentState)
    (h : s.error ≠ "") :
    generate_sql C s = s ∧ execute_query C s = s ∧
    analyze_results C s = s ∧ create_visualization C s = s :=
  ⟨generate_sql_of_error C s h, execute_query_of_error C s h,
   analyze_results_of_error C s h, create_visualization_of_error C s h⟩

/-- Witness for C1 (amended): the four guarded stages leave a concrete
errored state untouched. -/
theorem guarded_stages_no_op_witness :
    generate_sql baseC sWithError = sWithError ∧
    execute_query baseC sWithError = sWithError ∧
    analyze_results baseC sWithError = sWithError ∧
    create_visualization baseC sWithError = sWithError :=
  guarded_stages_no_op baseC sWithError (by decide)

/-- C2: a high-confidence non-database classification short-circuits the
pipeline at the branch: `sql_query` stays empty, `query_results` stays empty,
`visualization` stays absent, `analysis` is non-empty (the suggested response
or the fallback template), and no error occurred. -/
theorem short_circuit_correctness (C : Collaborators) (q : String)
    (info : Schema) (r : QuestionIntent)
    (hs : C.get_schema_info = Except.ok info)
    (hc : C.classify_question_intent q info = Except.ok r)
    (hdb : r.is_database_related = false)
    (hconf : 7/10 < r.confidence) :
    (process_question C q).sql_query = "" ∧
    (process_question C q).query_results.empty = true ∧
    (process_question C q).visualization = none ∧
    (process_question C q).analysis ≠ "" ∧
    (process_question C q).error = "" := by
  have hb := run_to_branch_ok C q info r hs hc
  simp only [hdb, if_false, Bool.false_eq_true] at hb
  have hsp : should_process_database_query (run_to_branch C q) = "end" := by
    rw [hb]
    unfold should_process_database_query
    simp [initial_state, hconf]
  simp only [process_question, hsp, if_true, reduceIte]
  rw [hb]
  refine ⟨rfl, rfl, rfl, ?_, rfl⟩
  exact pyOrStr_fallback_ne_empty r.suggested_response q info

/-- Witness for C2: a concrete run with a 0.9-confidence non-database
classification ends at the branch with the claimed field values. -/
theorem short_circuit_correctness_witness :
    (process_question Cshort "Tell me a joke").sql_query = "" ∧
    (process_question Cshort "Tell me a joke").query_results.empty = true ∧
    (process_question Cshort "Tell me a joke").visualization = none ∧
    (process_question Cshort "Tell me a joke").analysis ≠ "" ∧
    (process_question Cshort "Tell me a joke").error = "" :=
  short_circuit_correctness Cshort "Tell me a joke" okSchema
    ⟨false, 9/10, "definitely not about the database", none⟩ rfl rfl rfl
    (by norm_num)

/-- C3: a non-database classification at confidence ≤ 0.7 proceeds to SQL
generation: the branch answers `"generate_sql"`, and when the generator
succeeds with text `g` the final state's `sql_query` is exactly `g`
(non-empty whenever `g` is), whatever the later stages do. -/
theorem proceed_on_ambiguity (C : Collaborators) (q : String) (info : Schema)
    (r : QuestionIntent) (g : String)
    (hs : C.get_schema_info = Except.ok info)
    (hc : C.classify_question_intent q info = Except.ok r)
    (hdb : r.is_database_related = false)
    (hconf : r.confidence ≤ 7/10)
    (hg : C.generate_sql_query q info = Except.ok g) :
    should_process_database_query (run_to_branch C q) = "generate_sql" ∧
    (process_question C q).sql_query = g ∧
    (g ≠ "" → (process_question C q).sql_query ≠ "") := by
  have hb := run_to_branch_ok C q info r hs hc
  simp only [hdb, if_false, Bool.false_eq_true] at hb
  have hsp : should_process_database_query (run_to_branch C q) = "generate_sql" := by
    rw [hb]
    unfold should_process_database_query
    simp [initial_state, not_lt.mpr hconf]
  have hgen : generate_sql C (run_to_branch C q) =
      { run_to_branch C q with sql_query := g } := by
    rw [hb]
    unfold generate_sql
    simp only [initial_state]
    rw [hg]
    simp [initial_state]
  have hfinal : (process_question C q).sql_query = g := by
    simp only [process_question, hsp]
    rw [if_neg (by decide)]
    rw [create_visualization_sql_query, analyze_results_sql_query,
      execute_query_sql_query, hgen]
  exact ⟨hsp, hfinal, fun hne => hfinal ▸ hne⟩

/-- Witness for C3: the boundary case — confidence exactly 0.7, classified
non-database — proceeds, and the generated SQL reaches the final state. -/
theorem proceed_on_ambiguity_witness :
    should_process_database_query (run_to_branch Cboundary "Show the data") = "generate_sql" ∧
    (process_question Cboundary "Show the data").sql_query = "SELECT total FROM orders" ∧
    ("SELECT total FROM orders" ≠ "" →
      (process_question Cboundary "Show the data").sql_query ≠ "") :=
  proceed_on_ambiguity Cboundary "Show the data" okSchema
    ⟨false, 7/10, "ambiguous", none⟩ "SELECT total FROM orders" rfl rfl rfl
    (by norm_num) rfl

/-- C4 (counterexample): when the Schema Provider raises but the classifier
succeeds with a non-database result carrying a suggested response,
`classify_intent` (unguarded) still writes `analysis`, so the final state has
`analysis = "No." ≠ ""`, contradicting the claimed `analysis == ""`. -/
theorem schema_failure_analysis_written :
    (process_question CschemaDownSuggest "q").error = "Schema retrieval failed: timeout" ∧
    (process_question CschemaDownSuggest "q").analysis = "No." ∧
    (process_question CschemaDownSuggest "q").analysis ≠ "" := by
  exact ⟨by decide, by decide, by decide⟩

/-- C4 (amended): when the Schema Provider raises and the classifier succeeds
returning a database-related intent, the final state has the stage-tagged
error, empty `schema_info`, empty `sql_query`, and empty `analysis`. -/
theorem schema_failure_scenario (C : Collaborators) (q m : String)
    (r : QuestionIntent)
    (hs : C.get_schema_info = Except.error m)
    (hc : C.classify_question_intent q [] = Except.ok r)
    (hdb : r.is_database_related = true) :
    (process_question C q).error = "Schema retrieval failed: " ++ m ∧
    (process_question C q).schema_info = [] ∧
    (process_question C q).sql_query = "" ∧
    (process_question C q).analysis = "" := by
  have h1 : get_schema C (initial_state q) =
      { initial_state q with error := "Schema retrieval failed: " ++ m } := by
    unfold get_schema
    rw [hs]
  have hb : run_to_branch C q =
      { initial_state q with
          error := "Schema retrieval failed: " ++ m,
          intent := { is_database_related := some r.is_database_related,
                      confidence := some r.confidence,
                      reasoning := some r.reasoning,
                      suggested_response := some r.suggested_response } } := by
    unfold run_to_branch
    rw [h1]
    unfold classify_intent
    simp only [initial_state]
    rw [hc]
    simp [hdb]
  have herr : (run_to_branch C q).error ≠ "" := by
    rw [hb]
    exact append_ne_empty_left _ _ (by decide)
  have hsp : should_process_database_query (run_to_branch C q) = "end" := by
    unfold should_process_database_query
    rw [if_pos herr]
  simp only [process_question, hsp, reduceIte]
  rw [hb]
  exact ⟨rfl, rfl, rfl, rfl⟩

/-- Witness for C4 (amended): a concrete schema-provider failure with a
database-related classification yields exactly the claimed final fields. -/
theorem schema_failure_scenario_witness :
    (process_question CschemaDown "What is total revenue?").error
      = "Schema retrieval failed: " ++ "timeout" ∧
    (process_question CschemaDown "What is total revenue?").schema_info = [] ∧
    (process_question CschemaDown "What is total revenue?").sql_query = "" ∧
    (process_question CschemaDown "What is total revenue?").analysis = "" :=
  schema_failure_scenario CschemaDown "What is total revenue?" "timeout"
    ⟨true, 95/100, "asks about revenue", none⟩ rfl rfl rfl

/-- C5 (counterexample): an error set by `get_schema` is NOT permanent: when
the classifier also raises, the unguarded `classify_intent` overwrites it, so
the final error is the second stage's message, not the first failing
stage's. -/
theorem error_overwritten_by_second_stage :
    (get_schema CbothDown (initial_state "q")).error
      = "Schema retrieval failed: db down" ∧
    (process_question CbothDown "q").error
      = "Intent classification failed: llm down" ∧
    (process_question CbothDown "q").error
      ≠ (get_schema CbothDown (initial_state "q")).error := by
  exact ⟨by decide, by decide, by decide⟩

/-- C5 (amended): once `error` is set by ClassifyIntent or any later stage it
is permanent.  (1) An error non-empty when the branch is reached routes to
END and the final state is exactly the branch-time state, so the final
`error` is the one present there.  (2) When the run proceeds past the
branch, an error present after `generate_sql`, after `execute_query`, or
after `analyze_results` is carried unchanged to the final state, so the
final `error` is the first failing stage's message.  Only an error set by
FetchSchema lacks this protection: the unguarded ClassifyIntent overwrites
it when the classifier also raises. -/
theorem error_permanent_once_set (C : Collaborators) (q : String) :
    ((run_to_branch C q).error ≠ "" →
      process_question C q = run_to_branch C q) ∧
    (should_process_database_query (run_to_branch C q) = "generate_sql" →
      ((generate_sql C (run_to_branch C q)).error ≠ "" →
        (process_question C q).error
          = (generate_sql C (run_to_branch C q)).error) ∧
      ((execute_query C (generate_sql C (run_to_branch C q))).error ≠ "" →
        (process_question C q).error
          = (execute_query C (generate_sql C (run_to_branch C q))).error) ∧
      ((analyze_results C (execute_query C (generate_sql C (run_to_branch C q)))).error ≠ "" →
        (process_question C q).error
          = (analyze_results C (execute_query C (generate_sql C (run_to_branch C q)))).error)) := by
  constructor
  · intro h
    have hsp : should_process_database_query (run_to_branch C q) = "end" := by
      unfold should_process_database_query
      rw [if_pos h]
    simp only [process_question, hsp, reduceIte]
  · intro hb
    have hproc : process_question C q =
        create_visualization C (analyze_results C
          (execute_query C (generate_sql C (run_to_branch C q)))) := by
      simp only [process_question]
      rw [if_neg (by rw [hb]; decide)]
    refine ⟨?_, ?_, ?_⟩
    · intro h3
      rw [hproc, execute_query_of_error C _ h3, analyze_results_of_error C _ h3,
        create_visualization_of_error C _ h3]
    · intro h4
      rw [hproc, analyze_results_of_error C _ h4, create_visualization_of_error C _ h4]
    · intro h5
      rw [hproc, create_visualization_of_error C _ h5]

/-- Witness for C5 (amended): under a failing Schema Provider the pipeline
returns the branch-time state unchanged, and under a failing Query Generator
(with the run proceeding past the branch) the final error is exactly the
SQL-generation message. -/
theorem error_permanent_once_set_witness :
    process_question CschemaDown "q" = run_to_branch CschemaDown "q" ∧
    (process_question CsqlDown "Show totals").error
      = "SQL generation failed: bad prompt" := by
  refine ⟨(error_permanent_once_set CschemaDown "q").1 (by decide), ?_⟩
  have h := ((error_permanent_once_set CsqlDown "Show totals").2 (by decide)).1
    (by decide)
  rw [h]
  decide

/-- C6: for every behaviour of the collaborators and every question,
`process_question` returns a state (total by construction) whose `error` is
either empty or one of the six stage-tagged messages — faults are converted
to strings at the stage boundary, never propagated. -/
theorem process_question_error_stage_tagged (C : Collaborators) (q : String) :
    (process_question C q).error = "" ∨ ∃ m,
      (process_question C q).error = "Schema retrieval failed: " ++ m ∨
      (process_question C q).error = "Intent classification failed: " ++ m ∨
      (process_question C q).error = "SQL generation failed: " ++ m ∨
      (process_question C q).error = "Query execution failed: " ++ m ∨
      (process_question C q).error = "Analysis failed: " ++ m ∨
      (process_question C q).error = "Visualization failed: " ++ m := by
  have h2 : StageTagged (run_to_branch C q).error :=
    stageTagged_classify_intent C _
      (stageTagged_get_schema C _ (Or.inl rfl))
  by_cases hsp : should_process_database_query (run_to_branch C q) = "end"
  · simp only [process_question, hsp, reduceIte]
    exact h2
  · simp only [process_question]
    rw [if_neg hsp]
    exact stageTagged_create_visualization C _
      (stageTagged_analyze_results C _
        (stageTagged_execute_query C _
          (stageTagged_generate_sql C _ h2)))

/-- C7: in `classify_intent`, a non-database classification sets `analysis`
to the classifier's suggested response when it supplied a (non-empty) one,
and to the synthesized fallback message referencing the table names when it
supplied none (or the falsy empty string). -/
theorem classify_intent_suggested_or_fallback (C : Collaborators)
    (s : AgentState) (r : QuestionIntent)
    (hc : C.classify_question_intent s.question s.schema_info = Except.ok r)
    (hdb : r.is_database_related = false) :
    (∀ t, r.suggested_response = some t → t ≠ "" →
      (classify_intent C s).analysis = t) ∧
    (r.suggested_response = none →
      (classify_intent C s).analysis = fallbackResponse s.question s.schema_info) ∧
    (r.suggested_response = some "" →
      (classify_intent C s).analysis = fallbackResponse s.question s.schema_info) := by
  unfold classify_intent
  rw [hc]
  simp only [hdb, Bool.false_eq_true, if_false]
  refine ⟨?_, ?_, ?_⟩
  · intro t ht hne
    simp [pyOrStr, ht, hne]
  · intro ht
    simp [pyOrStr, ht]
  · intro ht
    simp [pyOrStr, ht]

/-- Witness for C7 (scenario B): with the classifier returning
`{is_database_related: false, confidence: 0.9, suggested_response: "I can't
answer weather questions."}`, the stage stores exactly that response and the
final state has it as `analysis` with an empty `sql_query`. -/
theorem classify_intent_suggested_or_fallback_witness :
    (classify_intent Cweather weatherSchemaState).analysis
      = "I can't answer weather questions." ∧
    (process_question Cweather "What's the weather today?").analysis
      = "I can't answer weather questions." ∧
    (process_question Cweather "What's the weather today?").sql_query = "" := by
  have hfin := process_question_short_circuit_eq Cweather "What's the weather today?"
    okSchema
    ⟨false, 9/10, "weather question", some "I can't answer weather questions."⟩
    rfl rfl rfl (by norm_num)
  refine ⟨(classify_intent_suggested_or_fallback Cweather weatherSchemaState
      ⟨false, 9/10, "weather question", some "I can't answer weather questions."⟩
      rfl rfl).1 "I can't answer weather questions." rfl (by decide),
    ?_, ?_⟩
  · rw [hfin]
    decide
  · rw [hfin]
    rfl

end AIDA
